import Mathlib

/-
  Verification of the jewellery-storefront backend operations.

  The database is modelled as explicit lists of rows (one list per table);
  each handler is a pure function from inputs and a database state to a
  result together with the successor state.  Monetary values are modelled
  as exact rationals; the numeric(10,2)-as-text round trip performed by the
  handlers (toString on write, parseFloat on read) is the identity in this
  model.  Timestamps are logical Nat clock values supplied as a `now`
  argument (the source calls new Date()).  Thrown errors are modelled with
  Except; the error value carries the database state at the moment of the
  failure, because the source performs its writes sequentially on the
  shared connection without a transaction wrapper, so writes made before a
  failing statement persist.
-/

inductive OrderStatus where
  | pending
  | processing
  | shipped
  | delivered
  | cancelled
deriving DecidableEq

inductive QueryStatus where
  | new
  | in_progress
  | resolved
deriving DecidableEq

structure JewelleryItem where
  id : Nat
  name : String
  materials : String
  description : String
  price : ℚ
  image_url : Option String
  stock_quantity : Int
  is_active : Bool
  created_at : Nat
  updated_at : Nat
deriving DecidableEq

structure Customer where
  id : Nat
  email : String
  first_name : String
  last_name : String
  phone : Option String
  created_at : Nat
deriving DecidableEq

structure Order where
  id : Nat
  customer_id : Nat
  total_amount : ℚ
  status : OrderStatus
  shipping_address : String
  billing_address : String
  payment_status : String
  payment_method : Option String
  created_at : Nat
  updated_at : Nat
deriving DecidableEq

structure OrderItem where
  id : Nat
  order_id : Nat
  jewellery_item_id : Nat
  quantity : Int
  price_per_item : ℚ
  created_at : Nat
deriving DecidableEq

structure CartItem where
  id : Nat
  session_id : String
  jewellery_item_id : Nat
  quantity : Int
  created_at : Nat
deriving DecidableEq

structure CustomerQuery where
  id : Nat
  name : String
  email : String
  subject : String
  message : String
  status : QueryStatus
  created_at : Nat
  updated_at : Nat
deriving DecidableEq

/-- The relational store: one list of rows per table, in physical row
    order, plus the serial-id counters for the tables the modelled
    handlers insert into. -/
structure DB where
  items : List JewelleryItem
  customers : List Customer
  orders : List Order
  orderItems : List OrderItem
  cartItems : List CartItem
  customerQueries : List CustomerQuery
  nextOrderId : Nat
  nextOrderItemId : Nat
  nextCartItemId : Nat
deriving DecidableEq

structure PaginationInput where
  page : Nat
  limit : Nat
deriving DecidableEq

structure CreateOrderInput where
  customer_id : Nat
  total_amount : ℚ
  shipping_address : String
  billing_address : String
  payment_method : Option String
deriving DecidableEq

structure AddToCartInput where
  session_id : String
  jewellery_item_id : Nat
  quantity : Int
deriving DecidableEq

structure UpdateOrderInput where
  id : Nat
  status : Option OrderStatus
  payment_status : Option String
  payment_method : Option (Option String)
deriving DecidableEq

/-- Decides whether the character list p is a leading segment of l. -/
def isPfx : List Char → List Char → Bool
  | [], _ => true
  | _ :: _, [] => false
  | a :: p, b :: l => a == b && isPfx p l

/-- Decides whether the character list p occurs contiguously inside l. -/
def hasSub (p : List Char) : List Char → Bool
  | [] => p.isEmpty
  | b :: l => isPfx p (b :: l) || hasSub p l

/-- Case-sensitive substring test on strings. -/
def strHasCS (hay pat : String) : Bool :=
  hasSub pat.data hay.data

/-- Case-insensitive substring test on strings (both sides lowercased). -/
def strHasCI (hay pat : String) : Bool :=
  hasSub (pat.data.map Char.toLower) (hay.data.map Char.toLower)

/- Error messages thrown by the handlers, assembled exactly as the source
   template literals assemble them.  Numeric payloads are rendered with
   toString; the source renders the two totals with toFixed(2), a
   formatting detail that no property below depends on. -/

def msgCustomerNotFound (cid : Nat) : String :=
  "Customer with ID " ++ toString cid ++ " not found"

def msgCartEmpty : String := "Cart is empty"

def msgItemUnavailable (nm : String) : String :=
  "Item \"" ++ nm ++ "\" is no longer available"

def msgInsufficientStockFor (nm : String) (avail requested : Int) : String :=
  "Insufficient stock for \"" ++ nm ++ "\". Available: " ++ toString avail ++
    ", Requested: " ++ toString requested

def msgTotalMismatch (expected provided : ℚ) : String :=
  "Total amount mismatch. Expected: " ++ toString expected ++
    ", Provided: " ++ toString provided

def msgJewelleryNotFound (jid : Nat) : String :=
  "Jewellery item with ID " ++ toString jid ++ " not found"

def msgJewelleryNotAvailable (jid : Nat) : String :=
  "Jewellery item with ID " ++ toString jid ++ " is not available"

def msgInsufficientStockTotal (avail requestedTotal : Int) : String :=
  "Insufficient stock. Available: " ++ toString avail ++
    ", Requested total: " ++ toString requestedTotal

def msgInsufficientStockNew (avail requested : Int) : String :=
  "Insufficient stock. Available: " ++ toString avail ++
    ", Requested: " ++ toString requested

/-- An injected store failure used to model a rejected insert, update or
    delete statement in the order-placement write sequence. -/
def msgStoreFailure : String := "store failure"

/- Pagination defaults.  The handlers written with the JavaScript or-else
   idiom treat 0 as absent; the customers handler uses nullish
   coalescing, which keeps an explicit 0. -/

def pageOrDefault (i : Option PaginationInput) : Nat :=
  match i with
  | none => 1
  | some p => if p.page == 0 then 1 else p.page

def limitOrDefault (i : Option PaginationInput) : Nat :=
  match i with
  | none => 10
  | some p => if p.limit == 0 then 10 else p.limit

def pageCoalesce (i : Option PaginationInput) : Nat :=
  match i with
  | none => 1
  | some p => p.page

def limitCoalesce (i : Option PaginationInput) : Nat :=
  match i with
  | none => 10
  | some p => p.limit

/-- SQL LIMIT l OFFSET (page-1)*l applied to a row list. -/
def paginate (page limit : Nat) (l : List α) : List α :=
  (l.drop ((page - 1) * limit)).take limit

/-- Stable insertion into a list kept in descending key order. -/
def insertCreatedDesc (key : α → Nat) (x : α) : List α → List α
  | [] => [x]
  | y :: ys => if key y < key x then x :: y :: ys else y :: insertCreatedDesc key x ys

/-- Stable sort by descending key, modelling ORDER BY created_at DESC. -/
def sortCreatedDesc (key : α → Nat) : List α → List α
  | [] => []
  | x :: xs => insertCreatedDesc key x (sortCreatedDesc key xs)

/- Catalog, customer and inquiry list handlers. -/

/-- Handler getJewelleryItems: active items only, newest first, paginated. -/
def getJewelleryItems (input : Option PaginationInput) (db : DB) : List JewelleryItem :=
  paginate (pageOrDefault input) (limitOrDefault input)
    (sortCreatedDesc (fun it => it.created_at) (db.items.filter (fun it => it.is_active)))

/-- Handler getAllJewelleryItems: every item, newest first, paginated. -/
def getAllJewelleryItems (input : Option PaginationInput) (db : DB) : List JewelleryItem :=
  paginate (pageOrDefault input) (limitOrDefault input)
    (sortCreatedDesc (fun it => it.created_at) db.items)

/-- Handler getCustomers: newest first, paginated (nullish-coalescing defaults). -/
def getCustomers (input : Option PaginationInput) (db : DB) : List Customer :=
  paginate (pageCoalesce input) (limitCoalesce input)
    (sortCreatedDesc (fun c => c.created_at) db.customers)

/-- Handler getCustomerQueries: newest first, paginated. -/
def getCustomerQueries (input : Option PaginationInput) (db : DB) : List CustomerQuery :=
  paginate (pageOrDefault input) (limitOrDefault input)
    (sortCreatedDesc (fun q => q.created_at) db.customerQueries)

/-- Handler deleteJewelleryItem: soft delete; flips is_active off and
    refreshes updated_at on every row matching the id, and reports whether
    any row was affected. -/
def deleteJewelleryItem (id : Nat) (now : Nat) (db : DB) : Bool × DB :=
  (db.items.any (fun it => it.id == id),
   { db with items := db.items.map (fun it =>
       if it.id == id then { it with is_active := false, updated_at := now } else it) })

/-- Handler addToCart: validates the catalog item, merges into an existing
    (session, item) row when one exists, otherwise inserts a new row.  The
    error value carries the (unchanged) database, as every failure occurs
    before any write. -/
def addToCart (input : AddToCartInput) (now : Nat) (db : DB) :
    Except (String × DB) (CartItem × DB) :=
  match db.items.filter (fun j => j.id == input.jewellery_item_id) with
  | [] => .error (msgJewelleryNotFound input.jewellery_item_id, db)
  | item :: _ =>
    if !item.is_active then
      .error (msgJewelleryNotAvailable input.jewellery_item_id, db)
    else
      match db.cartItems.filter (fun c =>
          c.session_id == input.session_id &&
          c.jewellery_item_id == input.jewellery_item_id) with
      | e :: _ =>
        let newQuantity := e.quantity + input.quantity
        if newQuantity > item.stock_quantity then
          .error (msgInsufficientStockTotal item.stock_quantity newQuantity, db)
        else
          .ok ({ e with quantity := newQuantity },
               { db with cartItems := db.cartItems.map (fun c =>
                   if c.id == e.id then { c with quantity := newQuantity } else c) })
      | [] =>
        if input.quantity > item.stock_quantity then
          .error (msgInsufficientStockNew item.stock_quantity input.quantity, db)
        else
          let row : CartItem :=
            { id := db.nextCartItemId, session_id := input.session_id,
              jewellery_item_id := input.jewellery_item_id,
              quantity := input.quantity, created_at := now }
          .ok (row, { db with cartItems := db.cartItems ++ [row],
                              nextCartItemId := db.nextCartItemId + 1 })

/-- Partial order update applied by updateOrder to a matching row:
    only the supplied fields change, and updated_at is always refreshed. -/
def applyOrderUpdate (input : UpdateOrderInput) (now : Nat) (o : Order) : Order :=
  { o with
    status := input.status.getD o.status,
    payment_status := input.payment_status.getD o.payment_status,
    payment_method := input.payment_method.getD o.payment_method,
    updated_at := now }

/-- Handler updateOrder: existence check first; returns none without
    touching the store when the id matches no row, otherwise updates the
    matching rows and returns the first updated row. -/
def updateOrder (input : UpdateOrderInput) (now : Nat) (db : DB) : Option Order × DB :=
  match db.orders.filter (fun o => o.id == input.id) with
  | [] => (none, db)
  | o :: _ =>
    (some (applyOrderUpdate input now o),
     { db with orders := db.orders.map (fun r =>
         if r.id == input.id then applyOrderUpdate input now r else r) })

/- Order placement. -/

/-- The customer-existence lookup of createOrder. -/
def findCustomers (db : DB) (cid : Nat) : List Customer :=
  db.customers.filter (fun c => c.id == cid)

/-- The cart-contents query of createOrder: the session's cart rows
    inner-joined with their catalog items. -/
def cartJoin (db : DB) (sessionId : String) : List (CartItem × JewelleryItem) :=
  (db.cartItems.filter (fun c => c.session_id == sessionId)).flatMap
    (fun c => (db.items.filter (fun j => j.id == c.jewellery_item_id)).map
      (fun j => (c, j)))

/-- The per-line validation loop of createOrder: the first inactive item
    or the first line whose quantity exceeds stock raises the error. -/
def validateLines : List (CartItem × JewelleryItem) → Except String Unit
  | [] => .ok ()
  | cj :: rest =>
    if !cj.2.is_active then
      .error (msgItemUnavailable cj.2.name)
    else if cj.2.stock_quantity < cj.1.quantity then
      .error (msgInsufficientStockFor cj.2.name cj.2.stock_quantity cj.1.quantity)
    else validateLines rest

/-- The recomputed total of createOrder: sum of current catalog price
    times quantity over the joined cart lines. -/
def calcTotal (ls : List (CartItem × JewelleryItem)) : ℚ :=
  ls.foldl (fun s cj => s + cj.2.price * (cj.1.quantity : ℚ)) 0

/-- The order row inserted by createOrder: status and payment_status take
    their column defaults, total_amount stores the caller-supplied figure. -/
def mkOrder (oid : Nat) (input : CreateOrderInput) (now : Nat) : Order :=
  { id := oid, customer_id := input.customer_id,
    total_amount := input.total_amount, status := .pending,
    shipping_address := input.shipping_address,
    billing_address := input.billing_address,
    payment_status := "pending", payment_method := input.payment_method,
    created_at := now, updated_at := now }

/-- The line-item rows inserted by createOrder: one per joined cart row,
    snapshotting the catalog price into price_per_item. -/
def mkOrderItems (startId oid now : Nat) : List (CartItem × JewelleryItem) → List OrderItem
  | [] => []
  | cj :: rest =>
    { id := startId, order_id := oid,
      jewellery_item_id := cj.1.jewellery_item_id, quantity := cj.1.quantity,
      price_per_item := cj.2.price, created_at := now } ::
      mkOrderItems (startId + 1) oid now rest

/-- The stock-decrement loop of createOrder: for each joined cart line, set
    the matching catalog rows to the snapshot stock minus the ordered
    quantity and refresh updated_at. -/
def applyStockUpdates (now : Nat) (ls : List (CartItem × JewelleryItem))
    (items : List JewelleryItem) : List JewelleryItem :=
  ls.foldl (fun acc cj => acc.map (fun it =>
    if it.id == cj.1.jewellery_item_id then
      { it with stock_quantity := cj.2.stock_quantity - cj.1.quantity, updated_at := now }
    else it)) items

/-- Handler createOrder with an injectable store failure.  failAt = some k
    makes the k-th write statement of the sequence reject (5 = order
    insert, 6 = line-item insert, 7 = stock update, 8 = cart delete).  The
    source runs these statements directly on the connection, not inside a
    transaction, so the error state keeps every write made before the
    failing statement; failAt = none is the source's behaviour when no
    statement rejects. -/
def createOrderAt (failAt : Option Nat) (input : CreateOrderInput)
    (sessionId : String) (now : Nat) (db : DB) :
    Except (String × DB) (Order × DB) :=
  if (findCustomers db input.customer_id).isEmpty then
    .error (msgCustomerNotFound input.customer_id, db)
  else
    let ls := cartJoin db sessionId
    if ls.isEmpty then
      .error (msgCartEmpty, db)
    else
      match validateLines ls with
      | .error m => .error (m, db)
      | .ok _ =>
        let calculatedTotal := calcTotal ls
        if |calculatedTotal - input.total_amount| > 1/100 then
          .error (msgTotalMismatch calculatedTotal input.total_amount, db)
        else if failAt = some 5 then
          .error (msgStoreFailure, db)
        else
          let order := mkOrder db.nextOrderId input now
          let db1 := { db with orders := db.orders ++ [order],
                               nextOrderId := db.nextOrderId + 1 }
          if failAt = some 6 then
            .error (msgStoreFailure, db1)
          else
            let db2 := { db1 with
              orderItems := db1.orderItems ++ mkOrderItems db1.nextOrderItemId order.id now ls,
              nextOrderItemId := db1.nextOrderItemId + ls.length }
            if failAt = some 7 then
              .error (msgStoreFailure, db2)
            else
              let db3 := { db2 with items := applyStockUpdates now ls db2.items }
              if failAt = some 8 then
                .error (msgStoreFailure, db3)
              else
                let remaining := db3.cartItems.filter (fun c => c.session_id != sessionId)
                .ok (order, { db3 with cartItems := remaining })

/-- Handler createOrder as the source runs it: no injected failure. -/
def createOrder (input : CreateOrderInput) (sessionId : String) (now : Nat)
    (db : DB) : Except (String × DB) (Order × DB) :=
  createOrderAt none input sessionId now db

/- Order read handlers. -/

structure OrderItemDetail where
  id : Nat
  order_id : Nat
  jewellery_item_id : Nat
  quantity : Int
  price_per_item : ℚ
  created_at : Nat
  jewellery_item : JewelleryItem
deriving DecidableEq

structure OrderWithItems where
  id : Nat
  customer_id : Nat
  total_amount : ℚ
  status : OrderStatus
  shipping_address : String
  billing_address : String
  payment_status : String
  payment_method : Option String
  created_at : Nat
  updated_at : Nat
  customer : Customer
  order_items : List OrderItemDetail
deriving DecidableEq

def mkDetail (oi : OrderItem) (j : JewelleryItem) : OrderItemDetail :=
  { id := oi.id, order_id := oi.order_id,
    jewellery_item_id := oi.jewellery_item_id, quantity := oi.quantity,
    price_per_item := oi.price_per_item, created_at := oi.created_at,
    jewellery_item := j }

def mkOrderWith (o : Order) (cu : Customer) : OrderWithItems :=
  { id := o.id, customer_id := o.customer_id, total_amount := o.total_amount,
    status := o.status, shipping_address := o.shipping_address,
    billing_address := o.billing_address, payment_status := o.payment_status,
    payment_method := o.payment_method, created_at := o.created_at,
    updated_at := o.updated_at, customer := cu, order_items := [] }

/-- The flat four-way inner join fetched by the order list handlers, in
    underlying row order; the handlers apply no ORDER BY. -/
def joinedOrderRows (db : DB) : List (Order × Customer × OrderItem × JewelleryItem) :=
  db.orders.flatMap (fun o =>
    (db.customers.filter (fun cu => cu.id == o.customer_id)).flatMap (fun cu =>
      (db.orderItems.filter (fun oi => oi.order_id == o.id)).flatMap (fun oi =>
        (db.items.filter (fun j => j.id == oi.jewellery_item_id)).map (fun j =>
          (o, cu, oi, j)))))

/-- One step of the Map-based grouping loop: create the order's entry on
    first sight (insertion order preserved), then push the row's line item
    onto that entry. -/
def groupStep (acc : List OrderWithItems)
    (r : Order × Customer × OrderItem × JewelleryItem) : List OrderWithItems :=
  let acc' := if acc.any (fun ow => ow.id == r.1.id) then acc
              else acc ++ [mkOrderWith r.1 r.2.1]
  acc'.map (fun ow =>
    if ow.id == r.1.id then
      { ow with order_items := ow.order_items ++ [mkDetail r.2.2.1 r.2.2.2] }
    else ow)

def groupOrders (rows : List (Order × Customer × OrderItem × JewelleryItem)) :
    List OrderWithItems :=
  rows.foldl groupStep []

/-- Handler getOrders: paginate the flat joined rows, then group by order. -/
def getOrders (input : Option PaginationInput) (db : DB) : List OrderWithItems :=
  groupOrders (paginate (pageOrDefault input) (limitOrDefault input) (joinedOrderRows db))

/-- Handler getCustomerOrders: same, filtered to one customer before
    pagination. -/
def getCustomerOrders (customerId : Nat) (input : Option PaginationInput)
    (db : DB) : List OrderWithItems :=
  groupOrders (paginate (pageOrDefault input) (limitOrDefault input)
    ((joinedOrderRows db).filter (fun r => r.1.customer_id == customerId)))

/-- Handler getOrder: single order joined with its customer; the line
    items are fetched separately, so an order without line items comes
    back with an empty order_items array rather than disappearing. -/
def getOrder (id : Nat) (db : DB) : Option OrderWithItems :=
  match (db.orders.filter (fun o => o.id == id)).flatMap (fun o =>
      (db.customers.filter (fun cu => cu.id == o.customer_id)).map (fun cu => (o, cu))) with
  | [] => none
  | (o, cu) :: _ =>
    some { mkOrderWith o cu with order_items :=
      (db.orderItems.filter (fun oi => oi.order_id == id)).flatMap (fun oi =>
        (db.items.filter (fun j => j.id == oi.jewellery_item_id)).map (fun j =>
          mkDetail oi j)) }

/- Concrete fixtures used by the closed evaluations below. -/

def custEx : Customer :=
  { id := 1, email := "a@example.com", first_name := "Ada", last_name := "B",
    phone := none, created_at := 0 }

def itemEx : JewelleryItem :=
  { id := 1, name := "Ring", materials := "Gold", description := "a ring",
    price := 100, image_url := none, stock_quantity := 5, is_active := true,
    created_at := 0, updated_at := 0 }

def cartRowEx : CartItem :=
  { id := 1, session_id := "s", jewellery_item_id := 1, quantity := 2, created_at := 0 }

def emptyDB : DB :=
  { items := [], customers := [], orders := [], orderItems := [], cartItems := [],
    customerQueries := [], nextOrderId := 1, nextOrderItemId := 1, nextCartItemId := 1 }

/-- A store with one customer, one catalog item and one cart row, ready
    for a successful order placement. -/
def dbOrderRun : DB :=
  { emptyDB with items := [itemEx], customers := [custEx], cartItems := [cartRowEx],
                 nextCartItemId := 2 }

/-- An order input whose total matches the recomputed cart total exactly. -/
def inpRun : CreateOrderInput :=
  { customer_id := 1, total_amount := 200, shipping_address := "sa",
    billing_address := "ba", payment_method := none }

/-- An order input whose total is off by exactly the 0.01 tolerance. -/
def inpNear : CreateOrderInput :=
  { inpRun with total_amount := 20001/100 }

/-- An order input for a customer id that does not exist anywhere. -/
def inpNoCustomer : CreateOrderInput :=
  { inpRun with customer_id := 42 }

/-- A store holding a customer but no cart rows for any session. -/
def dbCartEmptyEx : DB :=
  { emptyDB with customers := [custEx] }

/- The worked example of the specification: item A priced 199.99 with
   stock 10, item B priced 99.50 with stock 5, cart A times 2 plus
   B times 1 in session t, so the recomputed total is 499.48. -/

def itemA : JewelleryItem :=
  { itemEx with id := 1, name := "A", price := 19999/100, stock_quantity := 10 }

def itemB : JewelleryItem :=
  { itemEx with id := 2, name := "B", price := 9950/100, stock_quantity := 5 }

def dbSpecExample : DB :=
  { emptyDB with
    items := [itemA, itemB], customers := [custEx],
    cartItems :=
      [ { id := 1, session_id := "t", jewellery_item_id := 1, quantity := 2, created_at := 0 },
        { id := 2, session_id := "t", jewellery_item_id := 2, quantity := 1, created_at := 0 } ],
    nextCartItemId := 3 }

/-- The mismatch input of the worked example: caller supplies 100.00. -/
def inpSpecBad : CreateOrderInput :=
  { customer_id := 1, total_amount := 10000/100, shipping_address := "sa",
    billing_address := "ba", payment_method := none }

/- Fixture for the cart-merge properties. -/

def cartRowMerge : CartItem :=
  { id := 1, session_id := "s", jewellery_item_id := 1, quantity := 3, created_at := 0 }

def dbCartMerge : DB :=
  { emptyDB with items := [itemEx], cartItems := [cartRowMerge], nextCartItemId := 2 }

def inpAddMerge : AddToCartInput :=
  { session_id := "s", jewellery_item_id := 1, quantity := 4 }

/- Fixture for the soft-delete properties. -/

def dbDeleteEx : DB :=
  { emptyDB with items := [itemEx] }

/- Fixture for the order-update properties. -/

def orderEx : Order :=
  { id := 1, customer_id := 1, total_amount := 100, status := .pending,
    shipping_address := "sa", billing_address := "ba",
    payment_status := "pending", payment_method := none,
    created_at := 0, updated_at := 0 }

def dbUpdateEx : DB :=
  { emptyDB with customers := [custEx], orders := [orderEx] }

def inpUpdateStatus : UpdateOrderInput :=
  { id := 1, status := some .shipped, payment_status := none, payment_method := none }

/- Fixture for the order list properties: two orders, the older one
   stored first, each with one line item so the inner joins keep both. -/

def orderOld : Order := { orderEx with id := 1, created_at := 1, updated_at := 1 }

def orderNew : Order := { orderEx with id := 2, created_at := 2, updated_at := 2 }

def orderItemOld : OrderItem :=
  { id := 1, order_id := 1, jewellery_item_id := 1, quantity := 1,
    price_per_item := 100, created_at := 1 }

def orderItemNew : OrderItem :=
  { id := 2, order_id := 2, jewellery_item_id := 1, quantity := 1,
    price_per_item := 100, created_at := 2 }

def dbOrdersListEx : DB :=
  { emptyDB with items := [itemEx], customers := [custEx],
                 orders := [orderOld, orderNew],
                 orderItems := [orderItemOld, orderItemNew] }

/-- A store whose only order has no line items at all. -/
def dbZeroItemsOrder : DB :=
  { emptyDB with customers := [custEx], orders := [orderEx] }

/-- The database state produced by a successful createOrder call, written
    as one record update: order row appended, one line item per joined
    cart row, stock decremented per line, session cart rows deleted. -/
def orderPlacedDB (input : CreateOrderInput) (sessionId : String) (now : Nat)
    (db : DB) : DB :=
  { db with
    orders := db.orders ++ [mkOrder db.nextOrderId input now],
    nextOrderId := db.nextOrderId + 1,
    orderItems := db.orderItems ++
      mkOrderItems db.nextOrderItemId db.nextOrderId now (cartJoin db sessionId),
    nextOrderItemId := db.nextOrderItemId + (cartJoin db sessionId).length,
    items := applyStockUpdates now (cartJoin db sessionId) db.items,
    cartItems := db.cartItems.filter (fun c => c.session_id != sessionId) }

/- Substring lemmas. -/

theorem hasSub_nil : ∀ l : List Char, hasSub [] l = true := by
  intro l
  cases l <;> simp [hasSub, isPfx]

theorem isPfx_append {p l : List Char} (e : List Char) (h : isPfx p l = true) :
    isPfx p (l ++ e) = true := by
  induction p generalizing l with
  | nil => simp [isPfx]
  | cons a p ih =>
    cases l with
    | nil => simp [isPfx] at h
    | cons b l =>
      simp only [isPfx, Bool.and_eq_true, beq_iff_eq] at h
      simp only [List.cons_append, isPfx, Bool.and_eq_true, beq_iff_eq]
      exact ⟨h.1, ih h.2⟩

theorem hasSub_append_right {p l : List Char} (e : List Char)
    (h : hasSub p l = true) : hasSub p (l ++ e) = true := by
  induction l with
  | nil =>
    simp only [hasSub, List.isEmpty_iff] at h
    subst h
    exact hasSub_nil e
  | cons b l ih =>
    simp only [hasSub, Bool.or_eq_true] at h
    rcases h with h | h
    · simp only [List.cons_append, hasSub, Bool.or_eq_true]
      exact Or.inl (isPfx_append e h)
    · simp only [List.cons_append, hasSub, Bool.or_eq_true]
      exact Or.inr (ih h)

theorem hasSub_append_left {p : List Char} (l : List Char) {e : List Char}
    (h : hasSub p e = true) : hasSub p (l ++ e) = true := by
  induction l with
  | nil => simpa using h
  | cons b l ih =>
    simp only [List.cons_append, hasSub, Bool.or_eq_true]
    exact Or.inr ih

theorem strHasCI_append_right {a : String} (b : String) {pat : String}
    (h : strHasCI a pat = true) : strHasCI (a ++ b) pat = true := by
  unfold strHasCI at h ⊢
  have hd : (a ++ b).data = a.data ++ b.data := rfl
  rw [hd, List.map_append]
  exact hasSub_append_right _ h

theorem strHasCI_append_left (a : String) {b pat : String}
    (h : strHasCI b pat = true) : strHasCI (a ++ b) pat = true := by
  unfold strHasCI at h ⊢
  have hd : (a ++ b).data = a.data ++ b.data := rfl
  rw [hd, List.map_append]
  exact hasSub_append_left _ h

theorem msgCustomerNotFound_has (cid : Nat) :
    strHasCI (msgCustomerNotFound cid) "not found" = true :=
  strHasCI_append_left _ (by decide)

theorem msgItemUnavailable_has (nm : String) :
    strHasCI (msgItemUnavailable nm) "no longer available" = true :=
  strHasCI_append_left _ (by decide)

theorem msgInsufficientStockFor_has (nm : String) (a q : Int) :
    strHasCI (msgInsufficientStockFor nm a q) "insufficient stock" = true := by
  unfold msgInsufficientStockFor
  exact strHasCI_append_right _
    (strHasCI_append_right _
      (strHasCI_append_right _
        (strHasCI_append_right _
          (strHasCI_append_right _ (by decide)))))

theorem msgTotalMismatch_has (e p : ℚ) :
    strHasCI (msgTotalMismatch e p) "total amount mismatch" = true := by
  unfold msgTotalMismatch
  exact strHasCI_append_right _
    (strHasCI_append_right _ (strHasCI_append_right _ (by decide)))

theorem msgInsufficientStockTotal_has (a n : Int) :
    strHasCI (msgInsufficientStockTotal a n) "insufficient stock" = true := by
  unfold msgInsufficientStockTotal
  exact strHasCI_append_right _
    (strHasCI_append_right _ (strHasCI_append_right _ (by decide)))

theorem validateLines_error_sub {ls : List (CartItem × JewelleryItem)} {m : String}
    (h : validateLines ls = .error m) :
    strHasCI m "no longer available" = true ∨ strHasCI m "insufficient stock" = true := by
  induction ls with
  | nil => simp [validateLines] at h
  | cons cj rest ih =>
    unfold validateLines at h
    by_cases ha : cj.2.is_active
    · by_cases hs : cj.2.stock_quantity < cj.1.quantity
      · simp [ha, hs] at h
        exact Or.inr (h ▸ msgInsufficientStockFor_has cj.2.name cj.2.stock_quantity cj.1.quantity)
      · simp [ha, hs] at h
        exact ih h
    · simp only [Bool.not_eq_true] at ha
      simp [ha] at h
      exact Or.inl (h ▸ msgItemUnavailable_has cj.2.name)

/- Sortedness lemmas for the ORDER BY created_at DESC model. -/

theorem mem_insertCreatedDesc {key : α → Nat} {x z : α} {l : List α} :
    z ∈ insertCreatedDesc key x l ↔ z = x ∨ z ∈ l := by
  induction l with
  | nil => simp [insertCreatedDesc]
  | cons y ys ih =>
    unfold insertCreatedDesc
    by_cases h : key y < key x
    · simp [h]
    · simp [h, ih]
      tauto

theorem pairwise_insertCreatedDesc {key : α → Nat} {x : α} {l : List α}
    (h : l.Pairwise (fun a b => key b ≤ key a)) :
    (insertCreatedDesc key x l).Pairwise (fun a b => key b ≤ key a) := by
  induction l with
  | nil => simp [insertCreatedDesc]
  | cons y ys ih =>
    rw [List.pairwise_cons] at h
    unfold insertCreatedDesc
    by_cases hk : key y < key x
    · rw [if_pos hk, List.pairwise_cons]
      refine ⟨?_, List.pairwise_cons.mpr h⟩
      intro b hb
      rcases List.mem_cons.mp hb with rfl | hb'
      · exact le_of_lt hk
      · exact le_trans (h.1 b hb') (le_of_lt hk)
    · rw [if_neg hk, List.pairwise_cons]
      refine ⟨?_, ih h.2⟩
      intro b hb
      rcases mem_insertCreatedDesc.mp hb with rfl | hb'
      · exact not_lt.mp hk
      · exact h.1 b hb'

theorem pairwise_sortCreatedDesc {key : α → Nat} :
    ∀ l : List α, (sortCreatedDesc key l).Pairwise (fun a b => key b ≤ key a) := by
  intro l
  induction l with
  | nil => simp [sortCreatedDesc]
  | cons x xs ih => exact pairwise_insertCreatedDesc ih

theorem pairwise_paginate {R : α → α → Prop} {l : List α} (p n : Nat)
    (h : l.Pairwise R) : (paginate p n l).Pairwise R :=
  List.Pairwise.sublist
    (List.Sublist.trans (List.take_sublist _ _) (List.drop_sublist _ _)) h

/- Grouping lemmas for the order list handlers. -/

theorem groupStep_items_ne_nil {acc : List OrderWithItems}
    {r : Order × Customer × OrderItem × JewelleryItem}
    (h : ∀ ow ∈ acc, ow.order_items ≠ []) :
    ∀ ow ∈ groupStep acc r, ow.order_items ≠ [] := by
  intro ow how
  unfold groupStep at how
  rcases List.mem_map.mp how with ⟨ow', hmem', rfl⟩
  by_cases hid : ow'.id == r.1.id
  · simp [hid]
  · simp only [hid, if_false, Bool.false_eq_true]
    by_cases hany : acc.any (fun ow => ow.id == r.1.id)
    · rw [if_pos hany] at hmem'
      exact h ow' hmem'
    · rw [if_neg hany] at hmem'
      rcases List.mem_append.mp hmem' with hin | hnew
      · exact h ow' hin
      · exfalso
        rcases List.mem_singleton.mp hnew with rfl
        simp [mkOrderWith] at hid
  
theorem foldl_groupStep_items_ne_nil :
    ∀ (rows : List (Order × Customer × OrderItem × JewelleryItem))
      (acc : List OrderWithItems),
      (∀ ow ∈ acc, ow.order_items ≠ []) →
      ∀ ow ∈ rows.foldl groupStep acc, ow.order_items ≠ [] := by
  intro rows
  induction rows with
  | nil => intro acc h; simpa using h
  | cons r rest ih =>
    intro acc h
    rw [List.foldl_cons]
    exact ih _ (groupStep_items_ne_nil h)

theorem groupOrders_items_ne_nil
    (rows : List (Order × Customer × OrderItem × JewelleryItem)) :
    ∀ ow ∈ groupOrders rows, ow.order_items ≠ [] :=
  foldl_groupStep_items_ne_nil rows [] (by simp)

/- Stock-decrement lemmas. -/

theorem applyStockUpdates_not_touched {now : Nat}
    {ls : List (CartItem × JewelleryItem)} {items : List JewelleryItem}
    {x : JewelleryItem}
    (hx : ∀ cj ∈ ls, x.id ≠ cj.1.jewellery_item_id) (hmem : x ∈ items) :
    x ∈ applyStockUpdates now ls items := by
  induction ls generalizing items with
  | nil => simpa [applyStockUpdates] using hmem
  | cons c0 rest ih =>
    unfold applyStockUpdates at *
    rw [List.foldl_cons]
    have hne : (x.id == c0.1.jewellery_item_id) = false :=
      beq_eq_false_iff_ne.mpr (hx c0 (List.mem_cons_self c0 rest))
    exact ih (fun cj hcj => hx cj (List.mem_cons_of_mem c0 hcj))
      (List.mem_map.mpr ⟨x, hmem, by simp [hne]⟩)

theorem applyStockUpdates_mem_updated {now : Nat} :
    ∀ {ls : List (CartItem × JewelleryItem)} {items : List JewelleryItem},
      (ls.map (fun cj => cj.1.jewellery_item_id)).Nodup →
      ∀ cj ∈ ls, cj.2.id = cj.1.jewellery_item_id → cj.2 ∈ items →
      ({ cj.2 with stock_quantity := cj.2.stock_quantity - cj.1.quantity,
                   updated_at := now } : JewelleryItem) ∈
        applyStockUpdates now ls items := by
  intro ls
  induction ls with
  | nil => intro items _ cj h; simp at h
  | cons c0 rest ih =>
    intro items hnd cj hmem hid hit
    rw [List.map_cons, List.nodup_cons] at hnd
    unfold applyStockUpdates
    rw [List.foldl_cons]
    rcases List.mem_cons.mp hmem with rfl | hrest
    · -- the head line itself: its row is rewritten by the first pass and
      -- left alone by every later pass (distinct item ids per line)
      have hni : ∀ dj ∈ rest,
          ({ cj.2 with stock_quantity := cj.2.stock_quantity - cj.1.quantity,
                       updated_at := now } : JewelleryItem).id ≠
            dj.1.jewellery_item_id := by
        intro dj hdj h
        simp only at h
        apply hnd.1
        rw [← hid, h]
        exact List.mem_map_of_mem _ hdj
      exact applyStockUpdates_not_touched hni
        (List.mem_map.mpr ⟨cj.2, hit, by simp [hid]⟩)
    · have hne : cj.1.jewellery_item_id ≠ c0.1.jewellery_item_id := by
        intro hEq
        exact hnd.1 (hEq ▸ List.mem_map_of_mem _ hrest)
      exact ih hnd.2 cj hrest hid
        (List.mem_map.mpr ⟨cj.2, hit, by simp [hid, hne]⟩)

/- Join and line-item lemmas. -/

theorem cartJoin_mem {db : DB} {sid : String} {cj : CartItem × JewelleryItem}
    (h : cj ∈ cartJoin db sid) :
    cj.2 ∈ db.items ∧ cj.2.id = cj.1.jewellery_item_id := by
  unfold cartJoin at h
  rcases List.mem_flatMap.mp h with ⟨c, _, hcj⟩
  rcases List.mem_map.mp hcj with ⟨j, hj, rfl⟩
  have hf := List.mem_filter.mp hj
  exact ⟨hf.1, by simpa using hf.2⟩

theorem mkOrderItems_proj : ∀ (s o n : Nat) (ls : List (CartItem × JewelleryItem)),
    (mkOrderItems s o n ls).map
        (fun oi => (oi.jewellery_item_id, oi.quantity, oi.price_per_item)) =
      ls.map (fun cj => (cj.1.jewellery_item_id, cj.1.quantity, cj.2.price)) := by
  intro s o n ls
  induction ls generalizing s with
  | nil => simp [mkOrderItems]
  | cons cj rest ih => simp [mkOrderItems, ih]

theorem mkOrderItems_length : ∀ (s o n : Nat) (ls : List (CartItem × JewelleryItem)),
    (mkOrderItems s o n ls).length = ls.length := by
  intro s o n ls
  induction ls generalizing s with
  | nil => simp [mkOrderItems]
  | cons cj rest ih => simp [mkOrderItems, ih]

/- Shape lemmas for createOrder. -/

theorem createOrder_ok_eq (input : CreateOrderInput) (sid : String) (now : Nat)
    (db : DB)
    (h1 : (findCustomers db input.customer_id).isEmpty = false)
    (h2 : (cartJoin db sid).isEmpty = false)
    (h3 : validateLines (cartJoin db sid) = .ok ())
    (h4 : ¬ |calcTotal (cartJoin db sid) - input.total_amount| > 1/100) :
    createOrder input sid now db =
      .ok (mkOrder db.nextOrderId input now, orderPlacedDB input sid now db) := by
  unfold createOrder createOrderAt orderPlacedDB
  simp [h1, h2, h3, h4, mkOrder]
  simpa [one_div] using not_lt.mp h4

theorem createOrder_error_state {input : CreateOrderInput} {sid : String}
    {now : Nat} {db : DB} {m : String} {db' : DB}
    (h : createOrder input sid now db = .error (m, db')) : db' = db := by
  unfold createOrder createOrderAt at h
  by_cases hc : (findCustomers db input.customer_id).isEmpty
  · simp [hc] at h
    simp_all
  · by_cases hcart : (cartJoin db sid).isEmpty
    · simp [hc, hcart] at h
      simp_all
    · cases hval : validateLines (cartJoin db sid) with
      | error me =>
        simp [hc, hcart, hval] at h
        simp_all
      | ok u =>
        cases u
        by_cases htol : |calcTotal (cartJoin db sid) - input.total_amount| > 1/100
        · simp [hc, hcart, hval, htol] at h
          simp_all
        · have htol' : ¬ 100⁻¹ < |calcTotal (cartJoin db sid) - input.total_amount| := by
            simpa [one_div] using htol
          simp [hc, hcart, hval, htol'] at h

/- Claim theorems. -/

/-- C5: when a cart row already exists for the (session, item) pair,
    addToCart merges the requested quantity into that row and validates
    the combined quantity against current stock; if the merged total
    exceeds stock it fails with an insufficient-stock error naming
    available versus requested and writes nothing, otherwise it updates
    exactly that row (no insertion). -/
theorem addToCart_merge_semantics (input : AddToCartInput) (now : Nat) (db : DB)
    (item : JewelleryItem) (e : CartItem)
    (hitem : db.items.filter (fun j => j.id == input.jewellery_item_id) = [item])
    (hact : item.is_active = true)
    (hex : db.cartItems.filter (fun c =>
        c.session_id == input.session_id &&
        c.jewellery_item_id == input.jewellery_item_id) = [e]) :
    (e.quantity + input.quantity > item.stock_quantity →
      addToCart input now db =
        .error (msgInsufficientStockTotal item.stock_quantity
          (e.quantity + input.quantity), db) ∧
      strHasCI (msgInsufficientStockTotal item.stock_quantity
        (e.quantity + input.quantity)) "insufficient stock" = true) ∧
    (¬ e.quantity + input.quantity > item.stock_quantity →
      addToCart input now db =
        .ok ({ e with quantity := e.quantity + input.quantity },
             { db with cartItems := db.cartItems.map (fun c =>
                 if c.id == e.id then
                   { c with quantity := e.quantity + input.quantity }
                 else c) })) := by
  constructor
  · intro hgt
    refine ⟨?_, msgInsufficientStockTotal_has _ _⟩
    unfold addToCart
    rw [hitem]
    simp [hact, hex, hgt]
  · intro hle
    unfold addToCart
    rw [hitem]
    simp [hact, hex, hle]

/-- Witness for C5: merging 4 onto an existing row of 3 with stock 5
    fails with the insufficient-stock error and leaves the store as it
    was. -/
theorem addToCart_merge_semantics_witness :
    addToCart inpAddMerge 9 dbCartMerge =
      .error (msgInsufficientStockTotal itemEx.stock_quantity
        (cartRowMerge.quantity + inpAddMerge.quantity), dbCartMerge) ∧
    strHasCI (msgInsufficientStockTotal itemEx.stock_quantity
      (cartRowMerge.quantity + inpAddMerge.quantity)) "insufficient stock" = true :=
  (addToCart_merge_semantics inpAddMerge 9 dbCartMerge itemEx cartRowMerge
    rfl rfl rfl).1 (by decide)

/-- Counterexample for C6: the second soft delete refreshes updated_at,
    so not every field other than is_active keeps its value from after
    the first call. -/
theorem deleteJewelleryItem_second_call_changes_timestamp :
    ((deleteJewelleryItem 1 20 (deleteJewelleryItem 1 10 dbDeleteEx).2).1 = true) ∧
    ((deleteJewelleryItem 1 10 dbDeleteEx).2.items.map (fun it => it.updated_at)
        = [10]) ∧
    ((deleteJewelleryItem 1 20 (deleteJewelleryItem 1 10 dbDeleteEx).2).2.items.map
        (fun it => it.updated_at) = [20]) :=
  ⟨rfl, rfl, rfl⟩

/-- C6 (amended): soft delete is idempotent apart from the timestamp: it
    returns true exactly when a row matches the id (also on repetition),
    the second call keeps is_active false and every field except
    updated_at as the first call left it, and refreshes updated_at. -/
theorem deleteJewelleryItem_idempotent_props (db : DB) (id now now' : Nat) :
    ((deleteJewelleryItem id now db).1 = db.items.any (fun it => it.id == id)) ∧
    ((deleteJewelleryItem id now' (deleteJewelleryItem id now db).2).1 =
        db.items.any (fun it => it.id == id)) ∧
    ((deleteJewelleryItem id now' (deleteJewelleryItem id now db).2).2.items =
        (deleteJewelleryItem id now db).2.items.map
          (fun it => if it.id == id then { it with updated_at := now' } else it)) ∧
    ((deleteJewelleryItem id now' (deleteJewelleryItem id now db).2).2.items =
        db.items.map (fun it =>
          if it.id == id then { it with is_active := false, updated_at := now' }
          else it)) := by
  refine ⟨rfl, ?_, ?_, ?_⟩
  · unfold deleteJewelleryItem
    simp only [List.any_map]
    apply congrArg
    funext it
    by_cases h : it.id = id <;> simp [h]
  · unfold deleteJewelleryItem
    simp only [List.map_map]
    apply List.map_congr_left
    intro y _
    by_cases h : y.id = id <;> simp [h]
  · unfold deleteJewelleryItem
    simp only [List.map_map]
    apply List.map_congr_left
    intro y _
    by_cases h : y.id = id <;> simp [h]

/-- C8: with only a status supplied, updateOrder rewrites just the status
    and updated_at of the matching rows and returns the updated first
    match; a status-and-timestamp update provably preserves every other
    field; and a missing id returns none with the store untouched. -/
theorem updateOrder_partial_frame (input : UpdateOrderInput) (now : Nat) (db : DB)
    (hps : input.payment_status = none) (hpm : input.payment_method = none) :
    (∀ o rest, db.orders.filter (fun r => r.id == input.id) = o :: rest →
      updateOrder input now db =
        (some { o with status := input.status.getD o.status, updated_at := now },
         { db with orders := db.orders.map (fun r =>
             if r.id == input.id then
               { r with status := input.status.getD r.status, updated_at := now }
             else r) })) ∧
    (db.orders.filter (fun r => r.id == input.id) = [] →
      updateOrder input now db = (none, db)) ∧
    (∀ (o : Order) (st : OrderStatus) (n : Nat),
      ({ o with status := st, updated_at := n } : Order).total_amount = o.total_amount ∧
      ({ o with status := st, updated_at := n } : Order).shipping_address = o.shipping_address ∧
      ({ o with status := st, updated_at := n } : Order).billing_address = o.billing_address ∧
      ({ o with status := st, updated_at := n } : Order).created_at = o.created_at ∧
      ({ o with status := st, updated_at := n } : Order).customer_id = o.customer_id ∧
      ({ o with status := st, updated_at := n } : Order).payment_status = o.payment_status ∧
      ({ o with status := st, updated_at := n } : Order).payment_method = o.payment_method) := by
  refine ⟨?_, ?_, ?_⟩
  · intro o rest hf
    unfold updateOrder
    rw [hf]
    simp [applyOrderUpdate, hps, hpm]
  · intro hf
    unfold updateOrder
    rw [hf]
  · intro o st n
    exact ⟨rfl, rfl, rfl, rfl, rfl, rfl, rfl⟩

/-- Witness for C8: updating the status of the stored order to shipped. -/
theorem updateOrder_partial_frame_witness :
    updateOrder inpUpdateStatus 5 dbUpdateEx =
      (some { orderEx with status := inpUpdateStatus.status.getD orderEx.status,
                           updated_at := 5 },
       { dbUpdateEx with orders := dbUpdateEx.orders.map (fun r =>
           if r.id == inpUpdateStatus.id then
             { r with status := inpUpdateStatus.status.getD r.status, updated_at := 5 }
           else r) }) :=
  (updateOrder_partial_frame inpUpdateStatus 5 dbUpdateEx rfl rfl).1 orderEx [] rfl

/-- Counterexample for C7: the order list handler applies no ORDER BY,
    so a store whose older order sits first returns it first, violating
    newest-created-first. -/
theorem getOrders_not_sorted_newest_first :
    ((getOrders none dbOrdersListEx).map (fun ow => ow.created_at) = [1, 2]) ∧
    ¬ (getOrders none dbOrdersListEx).Pairwise
        (fun a b => b.created_at ≤ a.created_at) := by
  refine ⟨rfl, fun hpw => ?_⟩
  have hm : ((getOrders none dbOrdersListEx).map (fun ow => ow.created_at)).Pairwise
      (fun a b => b ≤ a) := List.pairwise_map.mpr hpw
  rw [show (getOrders none dbOrdersListEx).map (fun ow => ow.created_at) = [1, 2]
    from rfl] at hm
  have := (List.pairwise_cons.mp hm).1 2 (by simp)
  omega

/-- C7 (amended): the catalog, customer and inquiry list handlers return
    rows in descending created_at order; the order list handlers apply
    no ordering and can return an older order before a newer one, in
    underlying row order. -/
theorem list_handlers_ordering :
    (∀ input db, (getJewelleryItems input db).Pairwise
        (fun a b => b.created_at ≤ a.created_at)) ∧
    (∀ input db, (getAllJewelleryItems input db).Pairwise
        (fun a b => b.created_at ≤ a.created_at)) ∧
    (∀ input db, (getCustomers input db).Pairwise
        (fun a b => b.created_at ≤ a.created_at)) ∧
    (∀ input db, (getCustomerQueries input db).Pairwise
        (fun a b => b.created_at ≤ a.created_at)) ∧
    ((getOrders none dbOrdersListEx).map (fun ow => (ow.id, ow.created_at)) =
      [(1, 1), (2, 2)]) := by
  refine ⟨?_, ?_, ?_, ?_, rfl⟩ <;>
    intro input db <;>
    exact pairwise_paginate _ _ (pairwise_sortCreatedDesc _)

/-- C10: every order returned by the list handlers carries at least one
    line item, because the line items are inner-joined before grouping;
    an order with zero line items is omitted from the lists even though
    getOrder returns it with an empty order_items array. -/
theorem order_lists_omit_lineitemless_orders :
    (∀ input db, (getOrders input db).all
        (fun ow => !ow.order_items.isEmpty) = true) ∧
    (∀ cid input db, (getCustomerOrders cid input db).all
        (fun ow => !ow.order_items.isEmpty) = true) ∧
    (getOrders none dbZeroItemsOrder = []) ∧
    ((getOrder 1 dbZeroItemsOrder).map (fun ow => ow.order_items) = some []) := by
  refine ⟨?_, ?_, rfl, rfl⟩
  · intro input db
    rw [List.all_eq_true]
    intro ow how
    have hne := groupOrders_items_ne_nil
      (paginate (pageOrDefault input) (limitOrDefault input) (joinedOrderRows db))
      ow how
    simpa [List.isEmpty_iff] using hne
  · intro cid input db
    rw [List.all_eq_true]
    intro ow how
    have hne := groupOrders_items_ne_nil
      (paginate (pageOrDefault input) (limitOrDefault input)
        ((joinedOrderRows db).filter (fun r => r.1.customer_id == cid)))
      ow how
    simpa [List.isEmpty_iff] using hne

/-- Counterexample for C2: the customer-missing message is "Customer with
    ID 42 not found", which never contains the contiguous phrase
    "customer not found" (even ignoring case); and "Cart is empty" does
    not contain "cart is empty" case-sensitively. -/
theorem createOrder_message_substring_counterexample :
    (createOrder inpNoCustomer "s" 0 emptyDB =
        .error (msgCustomerNotFound 42, emptyDB)) ∧
    (strHasCI (msgCustomerNotFound 42) "customer not found" = false) ∧
    (createOrder inpRun "s" 0 dbCartEmptyEx = .error (msgCartEmpty, dbCartEmptyEx)) ∧
    (strHasCS msgCartEmpty "cart is empty" = false) :=
  ⟨rfl, rfl, rfl, rfl⟩

/-- C2 (amended): every pre-insert validation failure of createOrder
    leaves the store untouched and raises an error whose message
    contains, ignoring letter case, the stable substring for its cause:
    "not found" for a missing customer, "cart is empty", "no longer
    available" for an inactive item, "insufficient stock", and "total
    amount mismatch". -/
theorem createOrder_validation_failures (input : CreateOrderInput) (sid : String)
    (now : Nat) (db : DB) :
    (∀ m db', createOrder input sid now db = .error (m, db') → db' = db) ∧
    ((findCustomers db input.customer_id).isEmpty = true →
      createOrder input sid now db =
        .error (msgCustomerNotFound input.customer_id, db) ∧
      strHasCI (msgCustomerNotFound input.customer_id) "not found" = true) ∧
    ((findCustomers db input.customer_id).isEmpty = false →
      (cartJoin db sid).isEmpty = true →
      createOrder input sid now db = .error (msgCartEmpty, db) ∧
      strHasCI msgCartEmpty "cart is empty" = true) ∧
    (∀ m, (findCustomers db input.customer_id).isEmpty = false →
      (cartJoin db sid).isEmpty = false →
      validateLines (cartJoin db sid) = .error m →
      createOrder input sid now db = .error (m, db) ∧
      (strHasCI m "no longer available" = true ∨
        strHasCI m "insufficient stock" = true)) ∧
    (∀ cj rest, cartJoin db sid = cj :: rest → cj.2.is_active = false →
      validateLines (cartJoin db sid) = .error (msgItemUnavailable cj.2.name) ∧
      strHasCI (msgItemUnavailable cj.2.name) "no longer available" = true) ∧
    (∀ cj rest, cartJoin db sid = cj :: rest → cj.2.is_active = true →
      cj.2.stock_quantity < cj.1.quantity →
      validateLines (cartJoin db sid) =
        .error (msgInsufficientStockFor cj.2.name cj.2.stock_quantity cj.1.quantity) ∧
      strHasCI (msgInsufficientStockFor cj.2.name cj.2.stock_quantity cj.1.quantity)
        "insufficient stock" = true) ∧
    ((findCustomers db input.customer_id).isEmpty = false →
      (cartJoin db sid).isEmpty = false →
      validateLines (cartJoin db sid) = .ok () →
      |calcTotal (cartJoin db sid) - input.total_amount| > 1/100 →
      createOrder input sid now db =
        .error (msgTotalMismatch (calcTotal (cartJoin db sid)) input.total_amount, db) ∧
      strHasCI (msgTotalMismatch (calcTotal (cartJoin db sid)) input.total_amount)
        "total amount mismatch" = true) := by
  refine ⟨?_, ?_, ?_, ?_, ?_, ?_, ?_⟩
  · intro m db' h
    exact createOrder_error_state h
  · intro hc
    refine ⟨?_, msgCustomerNotFound_has _⟩
    unfold createOrder createOrderAt
    simp [hc]
  · intro hc hcart
    refine ⟨?_, by decide⟩
    unfold createOrder createOrderAt
    simp [hc, hcart]
  · intro m hc hcart hval
    refine ⟨?_, validateLines_error_sub hval⟩
    unfold createOrder createOrderAt
    simp [hc, hcart, hval]
  · intro cj rest hjoin hact
    refine ⟨?_, msgItemUnavailable_has _⟩
    rw [hjoin]
    unfold validateLines
    simp [hact]
  · intro cj rest hjoin hact hs
    refine ⟨?_, msgInsufficientStockFor_has _ _ _⟩
    rw [hjoin]
    unfold validateLines
    simp [hact, hs]
  · intro hc hcart hval htol
    refine ⟨?_, msgTotalMismatch_has _ _⟩
    have htol' : 100⁻¹ < |calcTotal (cartJoin db sid) - input.total_amount| := by
      simpa [one_div] using htol
    unfold createOrder createOrderAt
    simp [hc, hcart, hval, htol']

/-- Witness for C2: a cart placed for an unknown customer id fails with
    the not-found message and an untouched store. -/
theorem createOrder_validation_failures_witness :
    createOrder inpNoCustomer "u" 0 emptyDB =
        .error (msgCustomerNotFound inpNoCustomer.customer_id, emptyDB) ∧
      strHasCI (msgCustomerNotFound inpNoCustomer.customer_id) "not found" = true :=
  (createOrder_validation_failures inpNoCustomer "u" 0 emptyDB).2.1 rfl

/-- C4: after the pre-checks pass, createOrder fails with the
    total-amount-mismatch error exactly when the recomputed cart total
    differs from the supplied total_amount by more than 0.01, and
    succeeds when the difference is at most 0.01. -/
theorem createOrder_total_tolerance (input : CreateOrderInput) (sid : String)
    (now : Nat) (db : DB)
    (h1 : (findCustomers db input.customer_id).isEmpty = false)
    (h2 : (cartJoin db sid).isEmpty = false)
    (h3 : validateLines (cartJoin db sid) = .ok ()) :
    (|calcTotal (cartJoin db sid) - input.total_amount| > 1/100 →
      createOrder input sid now db =
        .error (msgTotalMismatch (calcTotal (cartJoin db sid)) input.total_amount, db) ∧
      strHasCI (msgTotalMismatch (calcTotal (cartJoin db sid)) input.total_amount)
        "total amount mismatch" = true) ∧
    (|calcTotal (cartJoin db sid) - input.total_amount| ≤ 1/100 →
      createOrder input sid now db =
        .ok (mkOrder db.nextOrderId input now, orderPlacedDB input sid now db)) := by
  constructor
  · intro htol
    refine ⟨?_, msgTotalMismatch_has _ _⟩
    have htol' : 100⁻¹ < |calcTotal (cartJoin db sid) - input.total_amount| := by
      simpa [one_div] using htol
    unfold createOrder createOrderAt
    simp [h1, h2, h3, htol']
  · intro hle
    exact createOrder_ok_eq input sid now db h1 h2 h3 (not_lt.mpr hle)

/-- Witness for C4: the specification's worked example with a supplied
    total of 100.00 against a recomputed total of 499.48 fails with the
    mismatch error. -/
theorem createOrder_total_tolerance_witness :
    createOrder inpSpecBad "t" 0 dbSpecExample =
        .error (msgTotalMismatch (calcTotal (cartJoin dbSpecExample "t"))
          inpSpecBad.total_amount, dbSpecExample) ∧
      strHasCI (msgTotalMismatch (calcTotal (cartJoin dbSpecExample "t"))
        inpSpecBad.total_amount) "total amount mismatch" = true :=
  (createOrder_total_tolerance inpSpecBad "t" 0 dbSpecExample rfl rfl rfl).1
    (by norm_num [calcTotal, cartJoin, dbSpecExample, itemA, itemB, itemEx,
      emptyDB, inpSpecBad, lt_abs])

/-- C3: a successful createOrder call creates the order row with status
    pending and payment_status "pending", appends exactly one line item
    per joined cart row whose price_per_item snapshots the catalog price,
    decrements each ordered item's stock by its ordered quantity while
    refreshing its updated_at, and deletes every cart row of the session. -/
theorem createOrder_success_effects (input : CreateOrderInput) (sid : String)
    (now : Nat) (db : DB)
    (h1 : (findCustomers db input.customer_id).isEmpty = false)
    (h2 : (cartJoin db sid).isEmpty = false)
    (h3 : validateLines (cartJoin db sid) = .ok ())
    (h4 : |calcTotal (cartJoin db sid) - input.total_amount| ≤ 1/100)
    (h5 : ((cartJoin db sid).map (fun cj => cj.1.jewellery_item_id)).Nodup) :
    ∃ o db', createOrder input sid now db = .ok (o, db') ∧
      o.status = OrderStatus.pending ∧
      o.payment_status = "pending" ∧
      db'.orderItems = db.orderItems ++
        mkOrderItems db.nextOrderItemId db.nextOrderId now (cartJoin db sid) ∧
      (mkOrderItems db.nextOrderItemId db.nextOrderId now (cartJoin db sid)).map
          (fun oi => (oi.jewellery_item_id, oi.quantity, oi.price_per_item)) =
        (cartJoin db sid).map
          (fun cj => (cj.1.jewellery_item_id, cj.1.quantity, cj.2.price)) ∧
      (∀ cj ∈ cartJoin db sid,
        ({ cj.2 with stock_quantity := cj.2.stock_quantity - cj.1.quantity,
                     updated_at := now } : JewelleryItem) ∈ db'.items) ∧
      (∀ c ∈ db'.cartItems, c.session_id ≠ sid) := by
  refine ⟨mkOrder db.nextOrderId input now, orderPlacedDB input sid now db,
    createOrder_ok_eq input sid now db h1 h2 h3 (not_lt.mpr h4), rfl, rfl, rfl,
    mkOrderItems_proj _ _ _ _, ?_, ?_⟩
  · intro cj hcj
    have hj := cartJoin_mem hcj
    exact applyStockUpdates_mem_updated h5 cj hcj hj.2 hj.1
  · intro c hc
    have hf : (c.session_id != sid) = true :=
      (List.mem_filter.mp hc).2
    simpa using hf

/-- Witness for C3: the one-customer one-item store with a two-unit cart
    and a matching total of 200 places successfully with the stated
    effects. -/
theorem createOrder_success_effects_witness :
    ∃ o db', createOrder inpRun "s" 0 dbOrderRun = .ok (o, db') ∧
      o.status = OrderStatus.pending ∧
      o.payment_status = "pending" ∧
      db'.orderItems = dbOrderRun.orderItems ++
        mkOrderItems dbOrderRun.nextOrderItemId dbOrderRun.nextOrderId 0
          (cartJoin dbOrderRun "s") ∧
      (mkOrderItems dbOrderRun.nextOrderItemId dbOrderRun.nextOrderId 0
          (cartJoin dbOrderRun "s")).map
          (fun oi => (oi.jewellery_item_id, oi.quantity, oi.price_per_item)) =
        (cartJoin dbOrderRun "s").map
          (fun cj => (cj.1.jewellery_item_id, cj.1.quantity, cj.2.price)) ∧
      (∀ cj ∈ cartJoin dbOrderRun "s",
        ({ cj.2 with stock_quantity := cj.2.stock_quantity - cj.1.quantity,
                     updated_at := 0 } : JewelleryItem) ∈ db'.items) ∧
      (∀ c ∈ db'.cartItems, c.session_id ≠ "s") :=
  createOrder_success_effects inpRun "s" 0 dbOrderRun rfl rfl rfl
    (by norm_num [calcTotal, cartJoin, dbOrderRun, itemEx, cartRowEx, emptyDB, inpRun])
    (by decide)

/-- C9: a successful createOrder call stores and returns the
    caller-supplied total_amount, not the recomputed cart total; with a
    supplied total 0.01 above a recomputed total of 200 the order is
    accepted and the stored total differs from the line-item sum. -/
theorem createOrder_stores_caller_total (input : CreateOrderInput) (sid : String)
    (now : Nat) (db : DB)
    (h1 : (findCustomers db input.customer_id).isEmpty = false)
    (h2 : (cartJoin db sid).isEmpty = false)
    (h3 : validateLines (cartJoin db sid) = .ok ())
    (h4 : |calcTotal (cartJoin db sid) - input.total_amount| ≤ 1/100) :
    (∃ o db', createOrder input sid now db = .ok (o, db') ∧
      o.total_amount = input.total_amount ∧ o ∈ db'.orders) ∧
    (∃ o db', createOrder inpNear "s" 0 dbOrderRun = .ok (o, db') ∧
      o.total_amount = inpNear.total_amount ∧
      calcTotal (cartJoin dbOrderRun "s") = 200 ∧
      o.total_amount ≠ calcTotal (cartJoin dbOrderRun "s")) := by
  constructor
  · refine ⟨mkOrder db.nextOrderId input now, orderPlacedDB input sid now db,
      createOrder_ok_eq input sid now db h1 h2 h3 (not_lt.mpr h4), rfl, ?_⟩
    simp [orderPlacedDB]
  · have hcalc : calcTotal (cartJoin dbOrderRun "s") = 200 := by
      norm_num [calcTotal, cartJoin, dbOrderRun, itemEx, cartRowEx, emptyDB]
    refine ⟨mkOrder dbOrderRun.nextOrderId inpNear 0,
      orderPlacedDB inpNear "s" 0 dbOrderRun,
      createOrder_ok_eq inpNear "s" 0 dbOrderRun rfl rfl rfl ?_, rfl, hcalc, ?_⟩
    · rw [hcalc]
      norm_num [inpNear, inpRun, lt_abs]
    · rw [hcalc]
      norm_num [mkOrder, inpNear, inpRun]

/-- Witness for C9: the matching-total run satisfies the first clause. -/
theorem createOrder_stores_caller_total_witness :
    ∃ o db', createOrder inpRun "s" 0 dbOrderRun = .ok (o, db') ∧
      o.total_amount = inpRun.total_amount ∧ o ∈ db'.orders :=
  (createOrder_stores_caller_total inpRun "s" 0 dbOrderRun rfl rfl rfl
    (by norm_num [calcTotal, cartJoin, dbOrderRun, itemEx, cartRowEx, emptyDB,
      inpRun])).1

/-- C1 (code bug): the source runs the order-placement writes with no
    transaction wrapper, so a rejected line-item insert (write step 6)
    leaves the already-inserted order row behind instead of rolling it
    back. -/
theorem createOrder_midfailure_keeps_order_row :
    ∃ m db', createOrderAt (some 6) inpRun "s" 0 dbOrderRun = .error (m, db') ∧
      db'.orders = [mkOrder dbOrderRun.nextOrderId inpRun 0] ∧
      dbOrderRun.orders = [] := by
  refine ⟨msgStoreFailure,
    { dbOrderRun with orders := [mkOrder dbOrderRun.nextOrderId inpRun 0],
                      nextOrderId := dbOrderRun.nextOrderId + 1 }, ?_, rfl, rfl⟩
  unfold createOrderAt
  have hc : (findCustomers dbOrderRun inpRun.customer_id).isEmpty = false := rfl
  have hcart : (cartJoin dbOrderRun "s").isEmpty = false := rfl
  have hval : validateLines (cartJoin dbOrderRun "s") = .ok () := rfl
  have htol : ¬ 100⁻¹ < |calcTotal (cartJoin dbOrderRun "s") - inpRun.total_amount| := by
    norm_num [calcTotal, cartJoin, dbOrderRun, itemEx, cartRowEx, emptyDB,
      inpRun, lt_abs]
  simp [hc, hcart, hval, htol]
  rfl
